import Mathlib

/-!
Verification of the interview_gpt orchestration layer.

Shallow embedding of the two edge functions:
  * `src/credit-monitor-function.ts`  (availability gate / credit monitor)
  * `src/ai-orchestrator-function.ts` (provider selection, fallback, usage tracking)

Store rows of the `ai_models` table are `ModelRecord`s; JavaScript `Date`
values are modelled as `DateTime` (epoch milliseconds plus the calendar
fields `getFullYear`/`getMonth` that the monthly-reset arithmetic reads).
Timestamps are stored in the table as the parsed value itself, since the
`toISOString`/`new Date` round trip is lossless for the fields used.
JavaScript `%` on integers is `Int.tmod` (sign of the dividend); `Math.floor`
of an exact integer division is `Int.fdiv`.
-/

/-- A JavaScript `Date`: `getTime` in epoch ms, plus `getFullYear`/`getMonth`. -/
structure DateTime where
  time : Int
  year : Int
  month : Int
deriving DecidableEq, Repr

/-- One row of the `ai_models` table. -/
structure ModelRecord where
  codename : String
  original_name : String
  credit_status : Bool
  current_daily_usage : Int
  current_monthly_usage : Int
  daily_limit : Int
  monthly_limit : Int
  last_reset_daily : DateTime
  last_reset_monthly : DateTime
  last_checked : DateTime
deriving DecidableEq, Repr

/-- One row of the append-only `ai_usage_tracking` table. -/
structure UsageRecord where
  model_codename : String
  session_id : String
  requests_made : Int
  tokens_used : Int
deriving DecidableEq, Repr

/-- The persistent store: the two tables the functions touch. -/
structure Store where
  ai_models : List ModelRecord
  ai_usage_tracking : List UsageRecord
deriving DecidableEq, Repr

/-! ## Credit monitor (`src/credit-monitor-function.ts`) -/

def msPerDay : Int := 1000 * 60 * 60 * 24

/-- `Math.floor((now.getTime() - lastDailyReset.getTime()) / (1000*60*60*24))`. -/
def daysSinceReset (now : DateTime) (last : DateTime) : Int :=
  (now.time - last.time).fdiv msPerDay

/-- `(now.getFullYear() - last.getFullYear()) * 12 + (now.getMonth() - last.getMonth())`. -/
def monthsSinceReset (now : DateTime) (last : DateTime) : Int :=
  (now.year - last.year) * 12 + (now.month - last.month)

/-- An entry pushed onto `exhaustedModels` inside `checkAndUpdateCredits`. -/
structure ExhaustedEvent where
  codename : String
  reason : String
  usage : Int
  limit : Int
deriving DecidableEq, Repr

/-- Result of one loop iteration of `checkAndUpdateCredits` on one record:
whether an update is pushed, the row that would be pushed (always stamped
with `last_checked := now`, as in the source object literal), and the
exhaustion event, if any. -/
structure GateResult where
  needsUpdate : Bool
  updated : ModelRecord
  exhausted : Option ExhaustedEvent
deriving DecidableEq, Repr

/-- The body of the `for (const model of models)` loop in
`checkAndUpdateCredits`: daily/monthly reset, then the limit check on the
post-reset counters, then the status decision. -/
def checkModel (now : DateTime) (m : ModelRecord) : GateResult :=
  let dailyDue := decide (1 ≤ daysSinceReset now m.last_reset_daily)
  let monthlyDue := decide (1 ≤ monthsSinceReset now m.last_reset_monthly)
  let newDailyUsage : Int := if dailyDue then 0 else m.current_daily_usage
  let newDailyReset : DateTime := if dailyDue then now else m.last_reset_daily
  let newMonthlyUsage : Int := if monthlyDue then 0 else m.current_monthly_usage
  let newMonthlyReset : DateTime := if monthlyDue then now else m.last_reset_monthly
  let dailyExceeded := decide ((0 : Int) < m.daily_limit) && decide (m.daily_limit ≤ newDailyUsage)
  let monthlyExceeded := decide ((0 : Int) < m.monthly_limit) && decide (m.monthly_limit ≤ newMonthlyUsage)
  let base : ModelRecord :=
    { m with
      current_daily_usage := newDailyUsage
      current_monthly_usage := newMonthlyUsage
      last_reset_daily := newDailyReset
      last_reset_monthly := newMonthlyReset
      last_checked := now }
  if dailyExceeded || monthlyExceeded then
    { needsUpdate := true
      updated := { base with credit_status := false }
      exhausted :=
        if m.credit_status then
          some { codename := m.codename
                 reason := if dailyExceeded then "Daily limit exceeded" else "Monthly limit exceeded"
                 usage := if dailyExceeded then newDailyUsage else newMonthlyUsage
                 limit := if dailyExceeded then m.daily_limit else m.monthly_limit }
        else none }
  else if !m.credit_status && (dailyDue || monthlyDue) then
    { needsUpdate := true
      updated := { base with credit_status := true }
      exhausted := none }
  else
    { needsUpdate := dailyDue || monthlyDue
      updated := base
      exhausted := none }

/-- Response body of the `check_credits` action (the `updates` list is the
set of rows written back by the batch-update loop). -/
structure CreditCheckResponse where
  success : Bool
  exhaustedModels : List ExhaustedEvent
  updates : List ModelRecord
  updatedModels : Nat
deriving DecidableEq, Repr

/-- `checkAndUpdateCredits`: run the gate over every record, persist the rows
with `needsUpdate`, and report the newly exhausted providers and the count
of written rows. -/
def checkAndUpdateCredits (now : DateTime) (models : List ModelRecord) : CreditCheckResponse :=
  let results := models.map (checkModel now)
  let updates := (results.filter (fun r => r.needsUpdate)).map (fun r => r.updated)
  { success := true
    exhaustedModels := results.filterMap (fun r => r.exhausted)
    updates := updates
    updatedModels := updates.length }

/-- An entry of the `get_exhausted_models` response. -/
structure ExhaustedInfo where
  codename : String
  name : String
  dailyUsage : Int
  monthlyUsage : Int
  dailyLimit : Int
  monthlyLimit : Int
  reason : String
deriving DecidableEq, Repr

/-- `getExhaustedModels`: all rows with `credit_status = false`, annotated
with a two-way daily-versus-monthly reason over current usage and limits. -/
def getExhaustedModels (models : List ModelRecord) : List ExhaustedInfo :=
  (models.filter (fun m => !m.credit_status)).map (fun m =>
    { codename := m.codename
      name := m.original_name
      dailyUsage := m.current_daily_usage
      monthlyUsage := m.current_monthly_usage
      dailyLimit := m.daily_limit
      monthlyLimit := m.monthly_limit
      reason :=
        if decide ((0 : Int) < m.daily_limit) && decide (m.daily_limit ≤ m.current_daily_usage) then
          "Daily limit exceeded"
        else
          "Monthly limit exceeded" })

/-! ## Orchestrator (`src/ai-orchestrator-function.ts`) -/

/-- The request context of the orchestrator actions. -/
structure InterviewContext where
  sessionId : String
  sessionType : String
  difficulty : Int
  questionNumber : Int
  previousQuestions : List String
  userResponse : Option String
deriving DecidableEq, Repr

deriving instance DecidableEq for Except

/-- External configuration and provider-adapter outcomes for one request:
whether each credential environment variable is set, and what each adapter
call would produce if invoked (`Except.error` models a thrown error). -/
structure OrchestratorEnv where
  groqKey : Bool
  mistralKey : Bool
  anthropicKey : Bool
  orionResult : Except String String
  titanResult : Except String String
  novaResult : Except String String
  athenaResult : Except String String
deriving DecidableEq, Repr

/-- JavaScript truthiness of an optional string (`undefined` and `""` are falsy). -/
def strTruthy : Option String → Bool
  | some s => !(s == "")
  | none => false

/-- `getAvailableModels`: rows whose codename is in the candidate set and
whose `credit_status` is true. The store imposes no ordering, so the result
order is the row order of the table value handed in. -/
def getAvailableModels (db : List ModelRecord) (modelNames : List String) : List ModelRecord :=
  db.filter (fun m => modelNames.contains m.codename && m.credit_status)

/-- `isModelAvailable`: `credit_status` of the (first) row with the given
codename, `false` when absent. -/
def isModelAvailable (db : List ModelRecord) (codename : String) : Bool :=
  match db.find? (fun m => m.codename == codename) with
  | some m => m.credit_status
  | none => false

/-- `markModelUnavailable`: set `credit_status := false` and stamp
`last_checked` on every row with the given codename. -/
def markModelUnavailable (db : List ModelRecord) (now : DateTime) (codename : String) : List ModelRecord :=
  db.map (fun m =>
    if m.codename == codename then
      { m with credit_status := false, last_checked := now }
    else m)

/-- Modelled from the spec: the `update_model_usage` store procedure invoked
by `trackUsage` via `supabase.rpc` is a server-side SQL function that is not
under `src/`. Per the spec it is the store's atomic increment primitive,
incrementing the provider's aggregate `dailyUsage`/`monthlyUsage` by the
call's `requestsMade`/`tokensUsed` in one server-side operation. -/
def update_model_usage (db : List ModelRecord) (model_name : String) (requests_to_add tokens_to_add : Int) : List ModelRecord :=
  db.map (fun m =>
    if m.codename == model_name then
      { m with
        current_daily_usage := m.current_daily_usage + requests_to_add
        current_monthly_usage := m.current_monthly_usage + tokens_to_add }
    else m)

/-- `trackUsage`: append one usage-log row, then apply the store's atomic
increment to the aggregate counters. -/
def trackUsage (store : Store) (modelCodename sessionId : String) (requests tokens : Int) : Store :=
  { ai_usage_tracking := store.ai_usage_tracking ++
      [{ model_codename := modelCodename
         session_id := sessionId
         requests_made := requests
         tokens_used := tokens }]
    ai_models := update_model_usage store.ai_models modelCodename requests tokens }

/-- One iteration of the candidate loop in `generateInterviewQuestion`: the
`if`/`else if` chain on the current row's codename. `none` means no branch
fired (the candidate is skipped without an adapter call); `some` is the
outcome of the adapter call the branch makes, paired with the `usedModel`
tag the branch assigns. -/
def tryModel (env : OrchestratorEnv) (codename : String) : Option (Except String (String × String)) :=
  if codename == "Orion" && env.groqKey then
    some (env.orionResult.map (fun q => (q, "Orion")))
  else if codename == "Titan" && env.mistralKey then
    some (env.titanResult.map (fun q => (q, "Titan")))
  else if codename == "Nova" then
    some (env.novaResult.map (fun q => (q, "Nova")))
  else
    none

/-- Outcome of the candidate loop: the `question`/`usedModel` variables after
the loop, the store table after any breaker trips, and — as an observable
trace — the codenames of the candidates whose branch actually invoked an
adapter, in invocation order. -/
structure LoopResult where
  question : String
  usedModel : String
  db : List ModelRecord
  attempted : List String
deriving DecidableEq, Repr

/-- The `for (const model of availableModels)` loop of
`generateInterviewQuestion`: walk the store-returned rows; on adapter success
`break` with the question, on a thrown adapter error mark the provider
unavailable and `continue`. -/
def tryModelsLoop (env : OrchestratorEnv) (now : DateTime) :
    List ModelRecord → List ModelRecord → LoopResult
  | [], db => { question := "", usedModel := "", db := db, attempted := [] }
  | m :: rest, db =>
    match tryModel env m.codename with
    | none => tryModelsLoop env now rest db
    | some (Except.ok (q, u)) =>
      { question := q, usedModel := u, db := db, attempted := [m.codename] }
    | some (Except.error _) =>
      let r := tryModelsLoop env now rest (markModelUnavailable db now m.codename)
      { r with attempted := m.codename :: r.attempted }

/-- The canned fallback questions of `getFallbackQuestion`, in source order. -/
def fallbackQuestions : List String :=
  [ "Tell me about a challenging project you\x27ve worked on recently.",
    "How do you handle working under pressure and tight deadlines?",
    "What motivates you in your professional work?",
    "Describe a time when you had to learn something new quickly.",
    "What are your greatest professional strengths?" ]

/-- `getFallbackQuestion`: `questions[(questionNumber - 1) % questions.length]`.
JavaScript `%` keeps the dividend's sign (`Int.tmod`); an array read at a
negative index is `undefined` (`none`), while the index `-0` produced when
the dividend is an exact negative multiple reads element `0` (and `Int.tmod`
returns plain `0` there). -/
def getFallbackQuestion (context : InterviewContext) : Option String :=
  let i : Int := (context.questionNumber - 1).tmod (fallbackQuestions.length : Int)
  if 0 ≤ i then fallbackQuestions.get? i.toNat else none

/-- The opportunistic Athena evaluation at the end of
`generateInterviewQuestion`: run only when Athena is available and the
context carries a truthy user response; a thrown error is swallowed. -/
def opportunisticEval (env : OrchestratorEnv) (db : List ModelRecord) (context : InterviewContext) : Option String :=
  if isModelAvailable db "Athena" && strTruthy context.userResponse then
    match env.athenaResult with
    | Except.ok e => some e
    | Except.error _ => none
  else none

/-- Response of the `generate_question` action. The `modelStatus` echo of the
store (a projection ordered by codename) carries no information beyond the
returned store value and is omitted. -/
inductive GenQuestionResponse where
  | unavailable (error : String) (unavailableModels : List String) (status : Nat)
  | ok (question : Option String) (usedModel : String) (evaluation : Option String) (status : Nat)
deriving DecidableEq, Repr

/-- `generateInterviewQuestion`: 503 when no candidate row is eligible;
otherwise run the candidate loop over the store-returned rows, fall back to
the canned question when the loop ends with an empty `question`, track usage
for non-fallback results, and attach the opportunistic evaluation. -/
def generateInterviewQuestion (env : OrchestratorEnv) (now : DateTime) (store : Store)
    (context : InterviewContext) : GenQuestionResponse × Store :=
  let availableModels := getAvailableModels store.ai_models ["Orion", "Titan", "Nova"]
  if availableModels.length = 0 then
    (GenQuestionResponse.unavailable "No AI models available" ["Orion", "Titan", "Nova"] 503, store)
  else
    let r := tryModelsLoop env now availableModels store.ai_models
    let store1 : Store := { store with ai_models := r.db }
    if r.question == "" then
      let evaluation := opportunisticEval env store1.ai_models context
      (GenQuestionResponse.ok (getFallbackQuestion context) "Fallback" evaluation 200, store1)
    else
      let store2 := trackUsage store1 r.usedModel context.sessionId 1 (r.question.length : Int)
      let evaluation := opportunisticEval env store2.ai_models context
      (GenQuestionResponse.ok (some r.question) r.usedModel evaluation 200, store2)

/-- The `scores` object of the fallback evaluation payload. -/
structure EvalScores where
  clarity : Int
  confidence : Int
  content : Int
  tone : Int
deriving DecidableEq, Repr

/-- Response of the `evaluate_response` action. -/
structure EvalResponse where
  evaluation : String
  usedModel : String
  scores : Option EvalScores
  status : Nat
deriving DecidableEq, Repr

/-- `getFallbackEvaluation`: the fixed 200 payload with flat scores of 7. -/
def getFallbackEvaluation : EvalResponse :=
  { evaluation := "Response received and noted. Continue with the interview."
    usedModel := "Fallback"
    scores := some { clarity := 7, confidence := 7, content := 7, tone := 7 }
    status := 200 }

/-- `evaluateResponse`: static fallback when Athena is unavailable or the
credential is missing; on a thrown adapter error trip the breaker for Athena
and return the fallback; otherwise track usage and return the evaluation. -/
def evaluateResponse (env : OrchestratorEnv) (now : DateTime) (store : Store)
    (context : InterviewContext) : EvalResponse × Store :=
  if !(isModelAvailable store.ai_models "Athena") || !env.anthropicKey then
    (getFallbackEvaluation, store)
  else
    match env.athenaResult with
    | Except.ok e =>
      let store1 := trackUsage store "Athena" context.sessionId 1
        (((context.userResponse.getD "").length : Int))
      ({ evaluation := e, usedModel := "Athena", scores := none, status := 200 }, store1)
    | Except.error _ =>
      (getFallbackEvaluation,
       { store with ai_models := markModelUnavailable store.ai_models now "Athena" })

/-- Spec-side characterization used by the amended C5 claim: the availability
gate "fires" on a record when a daily or monthly reset is due, or when a
positive limit is reached by the post-reset counter. -/
def gateFires (now : DateTime) (m : ModelRecord) : Bool :=
  let dailyDue := decide (1 ≤ daysSinceReset now m.last_reset_daily)
  let monthlyDue := decide (1 ≤ monthsSinceReset now m.last_reset_monthly)
  dailyDue || monthlyDue ||
    (decide ((0 : Int) < m.daily_limit) &&
      decide (m.daily_limit ≤ (if dailyDue then 0 else m.current_daily_usage))) ||
    (decide ((0 : Int) < m.monthly_limit) &&
      decide (m.monthly_limit ≤ (if monthlyDue then 0 else m.current_monthly_usage)))

/-- A batch of usage-tracking calls (session id, requests, tokens), applied
in some serialization order. -/
def applyTrackUsage (store : Store) (name : String) (ops : List (String × Int × Int)) : Store :=
  ops.foldl (fun s op => trackUsage s name op.1 op.2.1 op.2.2) store

/-! ## Concrete inputs used by counterexamples and witnesses -/

def epoch0 : DateTime := { time := 0, year := 2024, month := 0 }

def baseCtx : InterviewContext :=
  { sessionId := "s1", sessionType := "technical", difficulty := 5,
    questionNumber := 1, previousQuestions := [], userResponse := none }

def c1_orion : ModelRecord :=
  { codename := "Orion", original_name := "LLaMA-3.1 70B", credit_status := true,
    current_daily_usage := 0, current_monthly_usage := 0,
    daily_limit := 0, monthly_limit := 0,
    last_reset_daily := epoch0, last_reset_monthly := epoch0, last_checked := epoch0 }

def c1_titan : ModelRecord := { c1_orion with codename := "Titan", original_name := "Mixtral 8x7B" }

def c1_nova : ModelRecord := { c1_orion with codename := "Nova", original_name := "Gemma 7B" }

/-- All adapters healthy, Groq and Mistral credentials present, no Anthropic key. -/
def okEnv : OrchestratorEnv :=
  { groqKey := true, mistralKey := true, anthropicKey := false,
    orionResult := Except.ok "QO", titanResult := Except.ok "QT",
    novaResult := Except.ok "QN", athenaResult := Except.error "down" }

/-- Every text-generation adapter throws. -/
def allFailEnv : OrchestratorEnv :=
  { okEnv with
    orionResult := Except.error "e1"
    titanResult := Except.error "e2"
    novaResult := Except.error "e3" }

/-- Orion's adapter throws, the rest are healthy. -/
def c4_env : OrchestratorEnv := { okEnv with orionResult := Except.error "boom" }

/-- All three text providers disabled in the store. -/
def c2_store : Store :=
  { ai_models := [{ c1_orion with credit_status := false },
                  { c1_titan with credit_status := false },
                  { c1_nova with credit_status := false }]
    ai_usage_tracking := [] }

/-- Only Nova eligible. -/
def c2_fallback_store : Store := { ai_models := [c1_nova], ai_usage_tracking := [] }

def c3_now : DateTime := { time := 172800000, year := 2024, month := 0 }

def c3_model : ModelRecord :=
  { codename := "Orion", original_name := "LLaMA-3.1 70B", credit_status := false,
    current_daily_usage := 150, current_monthly_usage := 0,
    daily_limit := 100, monthly_limit := 0,
    last_reset_daily := epoch0, last_reset_monthly := epoch0, last_checked := epoch0 }

def c5_now : DateTime := { time := 1000, year := 2024, month := 0 }

/-- Already disabled, daily limit still exceeded, no reset due at `c5_now`. -/
def c5_model : ModelRecord :=
  { codename := "Titan", original_name := "Mixtral 8x7B", credit_status := false,
    current_daily_usage := 150, current_monthly_usage := 0,
    daily_limit := 100, monthly_limit := 0,
    last_reset_daily := epoch0, last_reset_monthly := epoch0, last_checked := epoch0 }

def c6a : InterviewContext := { baseCtx with questionNumber := 1 }

def c6b : InterviewContext := { baseCtx with questionNumber := 6 }

def c7_ctx : InterviewContext := { baseCtx with userResponse := some "my answer" }

/-- A store with no Athena row at all. -/
def c7_store : Store := { ai_models := [c1_orion], ai_usage_tracking := [] }

/-- Disabled by the breaker: `credit_status = false` while both counters are
below their positive limits. -/
def c8_model : ModelRecord :=
  { codename := "Athena", original_name := "Claude Haiku", credit_status := false,
    current_daily_usage := 3, current_monthly_usage := 5,
    daily_limit := 100, monthly_limit := 1000,
    last_reset_daily := epoch0, last_reset_monthly := epoch0, last_checked := epoch0 }

def c9_ctx : InterviewContext := { baseCtx with questionNumber := -4 }

def c10_store : Store := { ai_models := [c1_orion, c1_nova], ai_usage_tracking := [] }

def c10_ops : List (String × Int × Int) := [("s1", 1, 10), ("s2", 2, 20)]

def c10_ops_swapped : List (String × Int × Int) := [("s2", 2, 20), ("s1", 1, 10)]

/-! ## Helper lemmas -/

/-- `Int.tmod` keeps the dividend's sign: nonpositive dividend, nonpositive remainder. -/
theorem tmod_nonpos_of_nonpos : ∀ (a b : Int), a ≤ 0 → a.tmod b ≤ 0
  | Int.ofNat 0, b, _ => by simp
  | Int.ofNat (n + 1), _, h => by
    have hpos : (0 : Int) < Int.ofNat (n + 1) := Int.ofNat_pos.mpr (Nat.succ_pos n)
    exact absurd h hpos.not_le
  | Int.negSucc m, Int.ofNat n, _ => by
    have h : (Int.negSucc m).tmod (Int.ofNat n) = -(Int.ofNat (Nat.succ m % n)) := rfl
    rw [h]
    exact neg_nonpos.mpr (Int.ofNat_nonneg _)
  | Int.negSucc m, Int.negSucc n, _ => by
    have h : (Int.negSucc m).tmod (Int.negSucc n) = -(Int.ofNat (Nat.succ m % Nat.succ n)) := rfl
    rw [h]
    exact neg_nonpos.mpr (Int.ofNat_nonneg _)

/-! ## Claim theorems -/

/-- C6: fallback question selection is the pure 1-indexed modulo selection
over the fixed 5-item canned list: it depends on nothing but
`questionNumber`, and `questionNumber = 1` and `questionNumber = 6` select
the same canned question (the first one). -/
theorem fallback_question_pure_selection (c c2 : InterviewContext)
    (h : c.questionNumber = c2.questionNumber ∨ (c.questionNumber = 1 ∧ c2.questionNumber = 6)) :
    getFallbackQuestion c = getFallbackQuestion c2 ∧
    fallbackQuestions.length = 5 ∧
    (c.questionNumber = 1 → getFallbackQuestion c = fallbackQuestions.get? 0) := by
  have hlen : (fallbackQuestions.length : Int) = 5 := rfl
  refine ⟨?_, rfl, ?_⟩
  · rcases h with h | ⟨h1, h6⟩
    · simp only [getFallbackQuestion, h]
    · simp only [getFallbackQuestion, h1, h6, hlen]
      norm_num [Int.zero_tmod, Int.tmod_self]
  · intro h1
    simp only [getFallbackQuestion, h1, hlen]
    norm_num [Int.zero_tmod]

/-- C6 witness: the theorem at `questionNumber = 1` versus `questionNumber = 6`. -/
theorem fallback_question_pure_selection_witness :
    getFallbackQuestion c6a = getFallbackQuestion c6b ∧
    getFallbackQuestion c6a = fallbackQuestions.get? 0 :=
  ⟨(fallback_question_pure_selection c6a c6b (Or.inr ⟨rfl, rfl⟩)).1,
   (fallback_question_pure_selection c6a c6b (Or.inr ⟨rfl, rfl⟩)).2.2 rfl⟩

/-- C9 counterexample: at `questionNumber = -4` the JavaScript remainder is
`-0`, which indexes element 0, so a question is produced even though the
claim says every `questionNumber ≤ 0` yields no defined question. -/
theorem fallback_question_defined_below_one :
    c9_ctx.questionNumber ≤ 0 ∧
    getFallbackQuestion c9_ctx =
      some "Tell me about a challenging project you\x27ve worked on recently." :=
  ⟨by decide, rfl⟩

/-- C9 (amended): the lookup is total for `questionNumber ≥ 1`; for
`questionNumber ≤ 0` the remainder is nonpositive, so the lookup is
undefined unless `questionNumber - 1` is an exact multiple of 5, in which
case the remainder is (negative) zero and the first canned question is
produced. -/
theorem fallback_question_totality (c : InterviewContext) :
    (1 ≤ c.questionNumber → (getFallbackQuestion c).isSome = true) ∧
    (c.questionNumber ≤ 0 →
      (((c.questionNumber - 1).tmod 5 = 0 → getFallbackQuestion c = fallbackQuestions.get? 0) ∧
       ((c.questionNumber - 1).tmod 5 ≠ 0 → getFallbackQuestion c = none))) := by
  have hlen : (fallbackQuestions.length : Int) = 5 := rfl
  constructor
  · intro h
    have h0 : 0 ≤ c.questionNumber - 1 := by omega
    have hnn : 0 ≤ (c.questionNumber - 1).tmod (fallbackQuestions.length : Int) :=
      Int.tmod_nonneg _ h0
    have hlt : (c.questionNumber - 1).tmod (fallbackQuestions.length : Int) < 5 := by
      have := Int.tmod_lt_of_pos (c.questionNumber - 1)
        (b := (fallbackQuestions.length : Int)) (by rw [hlen]; norm_num)
      omega
    have hn : ((c.questionNumber - 1).tmod (fallbackQuestions.length : Int)).toNat <
        fallbackQuestions.length := by omega
    unfold getFallbackQuestion
    rw [if_pos hnn, List.get?_eq_get hn]
    rfl
  · intro hle
    have hnp : (c.questionNumber - 1).tmod (fallbackQuestions.length : Int) ≤ 0 :=
      tmod_nonpos_of_nonpos _ _ (by omega)
    constructor
    · intro h0
      have h0' : (c.questionNumber - 1).tmod (fallbackQuestions.length : Int) = 0 := by
        rw [hlen]; exact h0
      unfold getFallbackQuestion
      rw [h0']
      rfl
    · intro hne
      have hneg : (c.questionNumber - 1).tmod (fallbackQuestions.length : Int) < 0 := by
        rw [hlen] at *
        omega
      unfold getFallbackQuestion
      rw [if_neg (by omega)]

/-- C9 witness: the amended theorem applied at `questionNumber = 1` (total)
and at `questionNumber = -4` (multiple-of-5 escape hatch). -/
theorem fallback_question_totality_witness :
    (getFallbackQuestion c6a).isSome = true ∧
    getFallbackQuestion c9_ctx = fallbackQuestions.get? 0 :=
  ⟨(fallback_question_totality c6a).1 (by decide),
   ((fallback_question_totality c9_ctx).2 (by decide)).1 (by decide)⟩

/-- C3: whenever `lastResetDaily` is at least one day old, the gate zeroes
`dailyUsage` before the exhaustion check; in particular a record with
`dailyLimit = 100`, `dailyUsage = 150` (monthly unlimited) ends with
`dailyUsage = 0`, `creditStatus = true`, and contributes nothing to the
exhausted list. -/
theorem check_credits_daily_reset_precedes_limit (now : DateTime) (m : ModelRecord)
    (hday : 1 ≤ daysSinceReset now m.last_reset_daily) :
    (checkModel now m).updated.current_daily_usage = 0 ∧
    (m.daily_limit = 100 → m.current_daily_usage = 150 → m.monthly_limit = 0 →
      (checkModel now m).updated.credit_status = true ∧
      (checkModel now m).exhausted = none ∧
      (checkAndUpdateCredits now [m]).exhaustedModels = []) := by
  have hD : decide (1 ≤ daysSinceReset now m.last_reset_daily) = true := decide_eq_true hday
  constructor
  · simp only [checkModel]
    repeat' split
    all_goals simp [hD]
  · intro h100 h150 h0m
    cases hcs : m.credit_status <;>
      simp [checkModel, checkAndUpdateCredits, hD, h100, h150, h0m, hcs]

/-- C3 witness: the theorem at a concrete record whose daily reset is two
days overdue. -/
theorem check_credits_daily_reset_witness :
    (1 ≤ daysSinceReset c3_now c3_model.last_reset_daily) ∧
    (checkModel c3_now c3_model).updated.current_daily_usage = 0 ∧
    (checkModel c3_now c3_model).updated.credit_status = true ∧
    (checkModel c3_now c3_model).exhausted = none ∧
    (checkAndUpdateCredits c3_now [c3_model]).exhaustedModels = [] := by
  have h := check_credits_daily_reset_precedes_limit c3_now c3_model (by decide)
  exact ⟨by decide, h.1, (h.2 rfl rfl rfl).1, (h.2 rfl rfl rfl).2.1, (h.2 rfl rfl rfl).2.2⟩

/-- C5 counterexample: a record already disabled whose daily limit is still
exceeded and whose resets are not due comes out of the gate with status,
counters, and reset timestamps all equal to their prior values, yet
`check_credits` still writes it back and counts it. -/
theorem check_credits_counts_unchanged_record :
    ((checkModel c5_now c5_model).updated.credit_status = c5_model.credit_status ∧
     (checkModel c5_now c5_model).updated.current_daily_usage = c5_model.current_daily_usage ∧
     (checkModel c5_now c5_model).updated.current_monthly_usage = c5_model.current_monthly_usage ∧
     (checkModel c5_now c5_model).updated.last_reset_daily = c5_model.last_reset_daily ∧
     (checkModel c5_now c5_model).updated.last_reset_monthly = c5_model.last_reset_monthly) ∧
    (checkAndUpdateCredits c5_now [c5_model]).updatedModels = 1 ∧
    (checkAndUpdateCredits c5_now [c5_model]).updates = [(checkModel c5_now c5_model).updated] := by
  exact ⟨⟨by decide, by decide, by decide, by decide, by decide⟩, by decide, by decide⟩

/-- C5 (amended): `check_credits` persists and counts exactly the records on
which the gate fires — a reset is due or a positive limit is reached by the
post-reset counter — so an already-disabled record whose limit is still
exceeded is rewritten on every run even though only `lastChecked` changes. -/
theorem check_credits_updates_iff_gate_fires (now : DateTime) (models : List ModelRecord) :
    (checkAndUpdateCredits now models).updatedModels =
      (models.filter (gateFires now)).length ∧
    (∀ m : ModelRecord, (checkModel now m).needsUpdate = gateFires now m) := by
  have key : ∀ m : ModelRecord, (checkModel now m).needsUpdate = gateFires now m := by
    intro m
    by_cases h1 : 1 ≤ daysSinceReset now m.last_reset_daily <;>
    by_cases h2 : 1 ≤ monthsSinceReset now m.last_reset_monthly <;>
    by_cases h3 : (0 : Int) < m.daily_limit <;>
    by_cases h4 : (0 : Int) < m.monthly_limit <;>
    by_cases h5 : m.daily_limit ≤ m.current_daily_usage <;>
    by_cases h6 : m.monthly_limit ≤ m.current_monthly_usage <;>
    by_cases h7 : m.daily_limit ≤ (0 : Int) <;>
    by_cases h8 : m.monthly_limit ≤ (0 : Int) <;>
    cases hcs : m.credit_status <;>
      simp [checkModel, gateFires, h1, h2, h3, h4, h5, h6, h7, h8, hcs]
  refine ⟨?_, key⟩
  simp only [checkAndUpdateCredits, List.length_map]
  induction models with
  | nil => rfl
  | cons m ms ih =>
    simp only [List.map_cons, List.filter_cons, key m]
    cases h : gateFires now m <;> simp [h, ih]

/-- C8: any record with `creditStatus = false` appears in
`get_exhausted_models`, and when neither limit is exceeded (for example
after a single-strike breaker trip) its reason is the two-way default
"Monthly limit exceeded". -/
theorem exhausted_models_reason_two_way (models : List ModelRecord) (m : ModelRecord)
    (hmem : m ∈ models) (hstatus : m.credit_status = false)
    (hdaily : ¬((0 : Int) < m.daily_limit ∧ m.daily_limit ≤ m.current_daily_usage))
    (hmonthly : ¬((0 : Int) < m.monthly_limit ∧ m.monthly_limit ≤ m.current_monthly_usage)) :
    ({ codename := m.codename, name := m.original_name,
       dailyUsage := m.current_daily_usage, monthlyUsage := m.current_monthly_usage,
       dailyLimit := m.daily_limit, monthlyLimit := m.monthly_limit,
       reason := "Monthly limit exceeded" } : ExhaustedInfo) ∈ getExhaustedModels models := by
  unfold getExhaustedModels
  apply List.mem_map.2
  refine ⟨m, List.mem_filter.2 ⟨hmem, by simp [hstatus]⟩, ?_⟩
  have hcond : (decide ((0 : Int) < m.daily_limit) &&
      decide (m.daily_limit ≤ m.current_daily_usage)) = false := by
    by_cases h1 : (0 : Int) < m.daily_limit
    · by_cases h2 : m.daily_limit ≤ m.current_daily_usage
      · exact absurd ⟨h1, h2⟩ hdaily
      · simp [h2]
    · simp [h1]
  simp [hcond]

/-- C8 witness: a breaker-disabled record (counters below both positive
limits) still reported, with reason "Monthly limit exceeded". -/
theorem exhausted_models_reason_two_way_witness :
    ({ codename := "Athena", name := "Claude Haiku", dailyUsage := 3, monthlyUsage := 5,
       dailyLimit := 100, monthlyLimit := 1000,
       reason := "Monthly limit exceeded" } : ExhaustedInfo) ∈ getExhaustedModels [c8_model] :=
  exhausted_models_reason_two_way [c8_model] c8_model (List.mem_cons_self _ _) rfl
    (by decide) (by decide)

/-- C2 counterexample: with all three text providers disabled, the eligible
set is empty and `generate_question` returns the 503 "No AI models
available" error — not `usedModel = "Fallback"` with the first canned
question. -/
theorem generate_question_all_disabled_returns_503 :
    (generateInterviewQuestion okEnv epoch0 c2_store baseCtx).1 =
      GenQuestionResponse.unavailable "No AI models available" ["Orion", "Titan", "Nova"] 503 ∧
    ∀ q ev, (generateInterviewQuestion okEnv epoch0 c2_store baseCtx).1 ≠
      GenQuestionResponse.ok q "Fallback" ev 200 := by
  constructor
  · rfl
  · intro q ev h
    rw [show (generateInterviewQuestion okEnv epoch0 c2_store baseCtx).1 =
      GenQuestionResponse.unavailable "No AI models available" ["Orion", "Titan", "Nova"] 503
      from rfl] at h
    exact GenQuestionResponse.noConfusion h

/-- When every text-generation adapter throws, no branch of the candidate
loop can produce a success. -/
theorem tryModel_not_ok (env : OrchestratorEnv) (e1 e2 e3 : String)
    (h1 : env.orionResult = Except.error e1)
    (h2 : env.titanResult = Except.error e2)
    (h3 : env.novaResult = Except.error e3) (c : String) :
    tryModel env c = none ∨ ∃ er, tryModel env c = some (Except.error er) := by
  unfold tryModel
  split
  · exact Or.inr ⟨e1, by rw [h1]; rfl⟩
  · split
    · exact Or.inr ⟨e2, by rw [h2]; rfl⟩
    · split
      · exact Or.inr ⟨e3, by rw [h3]; rfl⟩
      · exact Or.inl rfl

/-- With every adapter failing, the candidate loop ends with an empty
`question`, whatever the store returned. -/
theorem tryModelsLoop_all_fail (env : OrchestratorEnv) (now : DateTime) (e1 e2 e3 : String)
    (h1 : env.orionResult = Except.error e1)
    (h2 : env.titanResult = Except.error e2)
    (h3 : env.novaResult = Except.error e3) :
    ∀ (ms db : List ModelRecord), (tryModelsLoop env now ms db).question = "" := by
  intro ms
  induction ms with
  | nil => intro db; rfl
  | cons m rest ih =>
    intro db
    rcases tryModel_not_ok env e1 e2 e3 h1 h2 h3 m.codename with hn | ⟨er, he⟩
    · simp only [tryModelsLoop, hn]
      exact ih db
    · simp only [tryModelsLoop, he]
      exact ih _

/-- C2 (amended): with all three providers disabled the request returns the
503 "No AI models available" error; the `usedModel = "Fallback"` response —
whose `question` at `questionNumber = 1` is the first canned question — is
produced when the eligible set is non-empty but every attempted candidate
fails. -/
theorem generate_question_fallback_when_all_attempts_fail
    (env : OrchestratorEnv) (now : DateTime) (store : Store) (context : InterviewContext)
    (e1 e2 e3 : String)
    (h1 : env.orionResult = Except.error e1)
    (h2 : env.titanResult = Except.error e2)
    (h3 : env.novaResult = Except.error e3)
    (hne : getAvailableModels store.ai_models ["Orion", "Titan", "Nova"] ≠ [])
    (hq : context.questionNumber = 1) :
    ∃ ev st, generateInterviewQuestion env now store context =
      (GenQuestionResponse.ok
        (some "Tell me about a challenging project you\x27ve worked on recently.")
        "Fallback" ev 200, st) := by
  have hlen : ¬ (getAvailableModels store.ai_models ["Orion", "Titan", "Nova"]).length = 0 := by
    simpa [List.length_eq_zero] using hne
  have hq0 : (tryModelsLoop env now
      (getAvailableModels store.ai_models ["Orion", "Titan", "Nova"]) store.ai_models).question
      = "" :=
    tryModelsLoop_all_fail env now e1 e2 e3 h1 h2 h3 _ _
  have hfb : getFallbackQuestion context =
      some "Tell me about a challenging project you\x27ve worked on recently." := by
    have hlen5 : (fallbackQuestions.length : Int) = 5 := rfl
    simp only [getFallbackQuestion, hq, hlen5]
    norm_num [Int.zero_tmod]
    rfl
  refine ⟨opportunisticEval env (tryModelsLoop env now
      (getAvailableModels store.ai_models ["Orion", "Titan", "Nova"]) store.ai_models).db context,
    { store with ai_models := (tryModelsLoop env now
      (getAvailableModels store.ai_models ["Orion", "Titan", "Nova"]) store.ai_models).db }, ?_⟩
  simp only [generateInterviewQuestion]
  rw [if_neg hlen]
  simp only [hq0, beq_self_eq_true, if_true, hfb]

/-- C2 witness: the amended theorem at a store where only Nova is eligible
and every adapter throws. -/
theorem generate_question_fallback_witness :
    ∃ ev st, generateInterviewQuestion allFailEnv epoch0 c2_fallback_store baseCtx =
      (GenQuestionResponse.ok
        (some "Tell me about a challenging project you\x27ve worked on recently.")
        "Fallback" ev 200, st) :=
  generate_question_fallback_when_all_attempts_fail allFailEnv epoch0 c2_fallback_store baseCtx
    "e1" "e2" "e3" rfl rfl rfl (by decide) rfl

/-- C1 (code evaluation at the failing input): two stores holding the same
eligible set `{Orion, Nova}` in different row orders. The loop attempts the
candidates in the store-returned order — `["Orion"]` for one ordering,
`["Nova"]` for the permuted one — and `generate_question` answers with a
different `usedModel` accordingly, so the attempt sequence is not invariant
under permutations of the eligible set. -/
theorem generate_question_follows_store_order :
    [c1_nova, c1_orion].Perm [c1_orion, c1_nova] ∧
    (tryModelsLoop okEnv epoch0 [c1_orion, c1_nova] [c1_orion, c1_nova]).attempted = ["Orion"] ∧
    (tryModelsLoop okEnv epoch0 [c1_nova, c1_orion] [c1_nova, c1_orion]).attempted = ["Nova"] ∧
    (generateInterviewQuestion okEnv epoch0 ⟨[c1_orion, c1_nova], []⟩ baseCtx).1 =
      GenQuestionResponse.ok (some "QO") "Orion" none 200 ∧
    (generateInterviewQuestion okEnv epoch0 ⟨[c1_nova, c1_orion], []⟩ baseCtx).1 =
      GenQuestionResponse.ok (some "QN") "Nova" none 200 := by
  refine ⟨List.Perm.swap _ _ _, rfl, rfl, rfl, rfl⟩

/-- C4: a thrown adapter error makes the loop force that candidate's
`credit_status` to `false` in the store, attempt it no further in this
request, and continue with the next candidate, whose success is returned. -/
theorem single_strike_breaker_trips_and_continues
    (env : OrchestratorEnv) (now : DateTime) (db : List ModelRecord)
    (m m2 : ModelRecord) (rest : List ModelRecord) (e q u : String)
    (hfail : tryModel env m.codename = some (Except.error e))
    (hsucc : tryModel env m2.codename = some (Except.ok (q, u))) :
    tryModelsLoop env now (m :: m2 :: rest) db =
      { question := q, usedModel := u,
        db := markModelUnavailable db now m.codename,
        attempted := [m.codename, m2.codename] } ∧
    ∀ r ∈ markModelUnavailable db now m.codename,
      r.codename = m.codename → r.credit_status = false := by
  constructor
  · simp only [tryModelsLoop, hfail, hsucc]
  · intro r hr hc
    rcases List.mem_map.1 hr with ⟨r0, _, rfl⟩
    by_cases h : r0.codename = m.codename
    · simp [h]
    · have hb : (r0.codename == m.codename) = false := by
        simpa using h
      simp only [hb, Bool.false_eq_true, if_false] at hc ⊢
      exact absurd hc h

/-- C4 witness: Orion's adapter throws, Titan succeeds. -/
theorem single_strike_breaker_witness :
    tryModelsLoop c4_env epoch0 [c1_orion, c1_titan] [c1_orion, c1_titan] =
      { question := "QT", usedModel := "Titan",
        db := markModelUnavailable [c1_orion, c1_titan] epoch0 "Orion",
        attempted := ["Orion", "Titan"] } ∧
    ∀ r ∈ markModelUnavailable [c1_orion, c1_titan] epoch0 "Orion",
      r.codename = "Orion" → r.credit_status = false :=
  single_strike_breaker_trips_and_continues c4_env epoch0 [c1_orion, c1_titan]
    c1_orion c1_titan [] "boom" "QT" "Titan" rfl rfl

/-- C7: `evaluate_response` always answers with status 200; whenever Athena
is unavailable, the credential is missing, or the adapter throws, the answer
is the static fallback evaluation, whose scores are the flat
`{clarity := 7, confidence := 7, content := 7, tone := 7}`. -/
theorem evaluate_response_never_errors (env : OrchestratorEnv) (now : DateTime)
    (store : Store) (context : InterviewContext) :
    (evaluateResponse env now store context).1.status = 200 ∧
    getFallbackEvaluation.scores =
      some { clarity := 7, confidence := 7, content := 7, tone := 7 } ∧
    ((isModelAvailable store.ai_models "Athena" = false ∨ env.anthropicKey = false ∨
        (∃ er, env.athenaResult = Except.error er)) →
      (evaluateResponse env now store context).1 = getFallbackEvaluation) := by
  refine ⟨?_, rfl, ?_⟩
  · unfold evaluateResponse
    split
    · rfl
    · split <;> rfl
  · intro h
    unfold evaluateResponse
    by_cases hc : (!(isModelAvailable store.ai_models "Athena") || !env.anthropicKey) = true
    · rw [if_pos hc]
    · rw [if_neg hc]
      rcases h with h | h | ⟨er, her⟩
      · exact absurd (by simp [h]) hc
      · exact absurd (by simp [h]) hc
      · rw [her]

/-- C7 witness: a store with no Athena row degrades to the fallback with
status 200. -/
theorem evaluate_response_never_errors_witness :
    (evaluateResponse okEnv epoch0 c7_store c7_ctx).1 = getFallbackEvaluation ∧
    (evaluateResponse okEnv epoch0 c7_store c7_ctx).1.status = 200 :=
  ⟨(evaluate_response_never_errors okEnv epoch0 c7_store c7_ctx).2.2 (Or.inl rfl),
   (evaluate_response_never_errors okEnv epoch0 c7_store c7_ctx).1⟩

/-- Closed form of a serialized batch of usage-tracking calls: each matching
row's counters grow by the sums of the batch's increments. -/
theorem applyTrackUsage_models (name : String) :
    ∀ (ops : List (String × Int × Int)) (store : Store),
      (applyTrackUsage store name ops).ai_models =
        store.ai_models.map (fun m =>
          if m.codename == name then
            { m with
              current_daily_usage := m.current_daily_usage + (ops.map (fun op => op.2.1)).sum
              current_monthly_usage := m.current_monthly_usage + (ops.map (fun op => op.2.2)).sum }
          else m)
  | [], store => by
    simp only [applyTrackUsage, List.foldl_nil, List.map_nil, List.sum_nil, add_zero]
    have hid : ∀ m : ModelRecord,
        (if (m.codename == name) then
          { m with
            current_daily_usage := m.current_daily_usage
            current_monthly_usage := m.current_monthly_usage }
         else m) = m := by
      intro m; split <;> rfl
    simp [hid]
  | op :: ops, store => by
    have ih := applyTrackUsage_models name ops (trackUsage store name op.1 op.2.1 op.2.2)
    simp only [applyTrackUsage, List.foldl_cons] at ih ⊢
    rw [ih]
    show (update_model_usage store.ai_models name op.2.1 op.2.2).map _ = _
    rw [update_model_usage, List.map_map]
    apply List.map_congr_left
    intro m _
    by_cases hm : (m.codename == name) = true
    · simp [Function.comp, hm, add_assoc]
    · simp [Function.comp, hm]

/-- C10: any serialization of N usage-tracking calls against the same
provider leaves its aggregate counters incremented by exactly the sum of
the N increments — the store-side atomic increment commutes, so no
interleaving loses an update. -/
theorem track_usage_no_lost_updates (store : Store) (name : String)
    (ops ops2 : List (String × Int × Int)) (h : ops.Perm ops2) :
    (applyTrackUsage store name ops).ai_models =
      store.ai_models.map (fun m =>
        if m.codename == name then
          { m with
            current_daily_usage := m.current_daily_usage + (ops.map (fun op => op.2.1)).sum
            current_monthly_usage := m.current_monthly_usage + (ops.map (fun op => op.2.2)).sum }
        else m) ∧
    (applyTrackUsage store name ops2).ai_models = (applyTrackUsage store name ops).ai_models := by
  have h1 := applyTrackUsage_models name ops store
  have h2 := applyTrackUsage_models name ops2 store
  refine ⟨h1, ?_⟩
  rw [h1, h2, (h.map (fun op => op.2.1)).sum_eq, (h.map (fun op => op.2.2)).sum_eq]

/-- C10 witness: two calls against Orion applied in both orders. -/
theorem track_usage_no_lost_updates_witness :
    c10_ops.Perm c10_ops_swapped ∧
    (applyTrackUsage c10_store "Orion" c10_ops).ai_models =
      c10_store.ai_models.map (fun m =>
        if m.codename == "Orion" then
          { m with
            current_daily_usage := m.current_daily_usage + (c10_ops.map (fun op => op.2.1)).sum
            current_monthly_usage := m.current_monthly_usage + (c10_ops.map (fun op => op.2.2)).sum }
        else m) ∧
    (applyTrackUsage c10_store "Orion" c10_ops_swapped).ai_models =
      (applyTrackUsage c10_store "Orion" c10_ops).ai_models := by
  have hp : c10_ops.Perm c10_ops_swapped := by decide
  exact ⟨hp, (track_usage_no_lost_updates c10_store "Orion" c10_ops c10_ops_swapped hp).1,
    (track_usage_no_lost_updates c10_store "Orion" c10_ops c10_ops_swapped hp).2⟩
